import Mathlib

/-!
# Verification of the rust-arb-bot core against its specification

Shallow embedding of the arbitrage decision engine (`src/arbitrage.rs`),
the DEX quote engine (`src/adapters/hyperswap.rs`, `src/helpers/abi.rs`,
`src/helpers/revm.rs`) and the latest-value channel used between them.

`f64` prices are modelled as exact rationals (`ℚ`); machine integers are
modelled as `ℕ` with an explicit `% 2^w` where the source performs
width-limited arithmetic (`u128` gas product, `u32` fee sum).
-/

namespace ArbBot

/-- `PriceData` from `src/arbitrage.rs`: a venue price sample (f64 bid/ask,
modelled as `ℚ`). -/
structure PriceData where
  bid : ℚ
  ask : ℚ
deriving DecidableEq, Repr

/-- `ArbDirection` from `src/arbitrage.rs`. -/
inductive ArbDirection where
  | BuyCex
  | BuyDex
deriving DecidableEq, Repr

/-- `ArbOpportunity` from `src/arbitrage.rs`. -/
structure ArbOpportunity where
  direction : ArbDirection
  cex_price : ℚ
  dex_price : ℚ
  net_profit_bps : ℚ
  estimated_profit_usd : ℚ
  gas_cost_usd : ℚ
deriving DecidableEq, Repr

/-- The configuration fields of `Settings` consumed by
`ArbEngine::calculate_arbitrage` (`config.bybit_fee_bps`,
`config.hyperswap_fee_bps` are `u32`; `config.gas_used` is cast
`as u128`). -/
structure Settings where
  bybit_fee_bps : ℕ
  hyperswap_fee_bps : ℕ
  gas_used : ℕ
deriving DecidableEq, Repr

/-- `let gross_profit_bps = ((sell_price - buy_price) / buy_price) * 10000.0`
(`src/arbitrage.rs:104`). Faithful to the `f64` source for
`buy_price ≠ 0`; at `buy_price = 0` the source produces NaN/inf (which the
`<= 0.0` guards treat as false) while `ℚ` division yields `0`, so theorems
about the gate are stated away from that hyperplane. -/
def gross_profit_bps (buy_price sell_price : ℚ) : ℚ :=
  ((sell_price - buy_price) / buy_price) * 10000

/-- `let gas_cost_wei = gas_price_wei * self.config.gas_used as u128`
(`src/arbitrage.rs:112`): `u128` multiplication, hence reduced `% 2^128`. -/
def gas_cost_wei (cfg : Settings) (gas_price_wei : ℕ) : ℕ :=
  (gas_price_wei * cfg.gas_used) % 2 ^ 128

/-- `let gas_cost_hype = gas_cost_wei as f64 / 1e18` (`src/arbitrage.rs:113`). -/
def gas_cost_hype (cfg : Settings) (gas_price_wei : ℕ) : ℚ :=
  (gas_cost_wei cfg gas_price_wei : ℚ) / 10 ^ 18

/-- `let hype_price = match direction { BuyCex => sell_price, BuyDex => buy_price }`
(`src/arbitrage.rs:115-118`). -/
def hype_price (buy_price sell_price : ℚ) (direction : ArbDirection) : ℚ :=
  match direction with
  | .BuyCex => sell_price
  | .BuyDex => buy_price

/-- `let gas_cost_usd = gas_cost_hype * hype_price` (`src/arbitrage.rs:119`). -/
def gas_cost_usd (cfg : Settings) (buy_price sell_price : ℚ)
    (direction : ArbDirection) (gas_price_wei : ℕ) : ℚ :=
  gas_cost_hype cfg gas_price_wei * hype_price buy_price sell_price direction

/-- `let gas_cost_bps = (gas_cost_usd / buy_price) * 10000.0`
(`src/arbitrage.rs:121`). Like `gross_profit_bps`, faithful to the `f64`
source only for `buy_price ≠ 0` (at `0` the source yields NaN, `ℚ` yields
`0`). -/
def gas_cost_bps (cfg : Settings) (buy_price sell_price : ℚ)
    (direction : ArbDirection) (gas_price_wei : ℕ) : ℚ :=
  (gas_cost_usd cfg buy_price sell_price direction gas_price_wei / buy_price) * 10000

/-- `let total_fees_bps = (self.config.bybit_fee_bps + self.config.hyperswap_fee_bps) as f64`
(`src/arbitrage.rs:123`): `u32` addition, hence reduced `% 2^32`. -/
def total_fees_bps (cfg : Settings) : ℚ :=
  (((cfg.bybit_fee_bps + cfg.hyperswap_fee_bps) % 2 ^ 32 : ℕ) : ℚ)

/-- `let net_profit_bps = gross_profit_bps - total_fees_bps - gas_cost_bps`
(`src/arbitrage.rs:124`). -/
def net_profit_bps (cfg : Settings) (buy_price sell_price : ℚ)
    (direction : ArbDirection) (gas_price_wei : ℕ) : ℚ :=
  gross_profit_bps buy_price sell_price - total_fees_bps cfg -
    gas_cost_bps cfg buy_price sell_price direction gas_price_wei

/-- `let estimated_profit_usd = (net_profit_bps / 10000.0) * buy_price`
(`src/arbitrage.rs:131`). -/
def estimated_profit_usd (cfg : Settings) (buy_price sell_price : ℚ)
    (direction : ArbDirection) (gas_price_wei : ℕ) : ℚ :=
  (net_profit_bps cfg buy_price sell_price direction gas_price_wei / 10000) * buy_price

/-- `ArbEngine::calculate_arbitrage` (`src/arbitrage.rs:97-148`): returns
`None` when `gross_profit_bps <= 0.0`, then `None` when
`net_profit_bps <= 0.0`, otherwise the assembled `ArbOpportunity`.
(The Rust `Result` wrapper is vacuous: the body never errors.)
Faithful to the `f64` source for `buy_price ≠ 0`. At `buy_price = 0` the
source's `gross_profit_bps` is NaN or inf, both `NaN <= 0.0` guards are
false, and the source returns `Some` with NaN fields, whereas this model
returns `none`; gate theorems therefore carry a `buy_price ≠ 0`
hypothesis. -/
def calculate_arbitrage (cfg : Settings) (buy_price sell_price : ℚ)
    (direction : ArbDirection) (gas_price_wei : ℕ) : Option ArbOpportunity :=
  if gross_profit_bps buy_price sell_price ≤ 0 then none
  else if net_profit_bps cfg buy_price sell_price direction gas_price_wei ≤ 0 then none
  else some
    { direction := direction
      cex_price := match direction with
        | .BuyCex => buy_price
        | .BuyDex => sell_price
      dex_price := match direction with
        | .BuyCex => sell_price
        | .BuyDex => buy_price
      net_profit_bps := net_profit_bps cfg buy_price sell_price direction gas_price_wei
      estimated_profit_usd := estimated_profit_usd cfg buy_price sell_price direction gas_price_wei
      gas_cost_usd := gas_cost_usd cfg buy_price sell_price direction gas_price_wei }

/-! ## Spec-side profitability formulas (spec §4.3), for the refinement claim C1 -/

/-- Spec §4.3: `gross_profit_bps = (sell_price - buy_price) / buy_price * 10000`. -/
def spec_gross_profit_bps (buy_price sell_price : ℚ) : ℚ :=
  (sell_price - buy_price) / buy_price * 10000

/-- Spec §4.3: `gas_cost_usd = gas_price_per_unit * gas_units_for_dex_leg
/ native_token_decimals_factor * native_token_usd_price`, with the
native-token USD price being the sell-side price for direction A (BuyCex)
and the buy-side price for direction B (BuyDex). -/
def spec_gas_cost_usd (gas_price_per_unit gas_units : ℕ)
    (buy_price sell_price : ℚ) (direction : ArbDirection) : ℚ :=
  (gas_price_per_unit : ℚ) * (gas_units : ℚ) / 10 ^ 18 *
    (match direction with
     | .BuyCex => sell_price
     | .BuyDex => buy_price)

/-- Spec §4.3: `gas_cost_bps = (gas_cost_usd / buy_price) * 10000`. -/
def spec_gas_cost_bps (gcUsd buy_price : ℚ) : ℚ :=
  (gcUsd / buy_price) * 10000

/-- Spec §4.3: `net_profit_bps = gross_profit_bps - total_fee_bps - gas_cost_bps`,
with `total_fee_bps` the sum of the two configured venue fee rates. -/
def spec_net_profit_bps (cfg : Settings) (buy_price sell_price : ℚ)
    (direction : ArbDirection) (gas_price_per_unit : ℕ) : ℚ :=
  spec_gross_profit_bps buy_price sell_price -
    ((cfg.bybit_fee_bps + cfg.hyperswap_fee_bps : ℕ) : ℚ) -
    spec_gas_cost_bps (spec_gas_cost_usd gas_price_per_unit cfg.gas_used
      buy_price sell_price direction) buy_price

/-- Spec §4.3: `net_profit_usd = (net_profit_bps / 10000) * buy_price`. -/
def spec_net_profit_usd (cfg : Settings) (buy_price sell_price : ℚ)
    (direction : ArbDirection) (gas_price_per_unit : ℕ) : ℚ :=
  spec_net_profit_bps cfg buy_price sell_price direction gas_price_per_unit / 10000 * buy_price

/-! ## The arbitrage engine task (`ArbEngine::run` / `check_for_opportunity`) -/

/-- Which `tokio::select!` arm fired in `ArbEngine::run`
(`src/arbitrage.rs:54-61`): a change on the CEX or on the DEX channel. -/
inductive Wake where
  | CexChanged
  | DexChanged
deriving DecidableEq, Repr

/-- The state visible to one `ArbEngine` evaluation: the current value held
by each watch channel, the gas-price provider (`provider.get_gas_price()`,
modelled as an oracle indexed by how many fetches have been issued so far),
and the log of alerted opportunities (`alert_opportunity`). -/
structure EngineState where
  cex_rx : Option PriceData
  dex_rx : Option PriceData
  gasOracle : ℕ → Except Unit ℕ
  fetchCount : ℕ
  alerts : List ArbOpportunity

/-- `ArbEngine::check_for_opportunity` (`src/arbitrage.rs:65-95`): borrow the
current value of both channels; if either is `None`, return `Ok(())`;
otherwise fetch the gas price once (`?` propagates a fetch failure), run
`calculate_arbitrage` for direction A (`buy_price = cex.ask`,
`sell_price = dex.bid`, `BuyCex`) and direction B (`buy_price = dex.ask`,
`sell_price = cex.bid`, `BuyDex`) with that same gas price, alerting each
returned opportunity. -/
def check_for_opportunity (cfg : Settings) (st : EngineState) :
    Except Unit EngineState :=
  match st.cex_rx, st.dex_rx with
  | some cex, some dex =>
    match st.gasOracle st.fetchCount with
    | .error e => .error e
    | .ok gas_price_wei =>
      let st1 : EngineState := { st with fetchCount := st.fetchCount + 1 }
      let st2 : EngineState :=
        match calculate_arbitrage cfg cex.ask dex.bid .BuyCex gas_price_wei with
        | some opp => { st1 with alerts := st1.alerts ++ [opp] }
        | none => st1
      let st3 : EngineState :=
        match calculate_arbitrage cfg dex.ask cex.bid .BuyDex gas_price_wei with
        | some opp => { st2 with alerts := st2.alerts ++ [opp] }
        | none => st2
      .ok st3
  | _, _ => .ok st

/-- One iteration of the `loop { tokio::select! { ... } }` in
`ArbEngine::run` (`src/arbitrage.rs:53-61`): both select arms call
`self.check_for_opportunity().await?` on the same engine state, so the body
is independent of which channel fired. -/
def run_step (cfg : Settings) (_w : Wake) (st : EngineState) :
    Except Unit EngineState :=
  check_for_opportunity cfg st

/-- `ArbEngine::run` over a finite trace of channel wakes: the `?` in
`self.check_for_opportunity().await?` propagates any error out of the loop,
ending the task; otherwise the loop continues with the next wake. -/
def run (cfg : Settings) : List Wake → EngineState → Except Unit EngineState
  | [], st => .ok st
  | w :: ws, st =>
    match run_step cfg w st with
    | .error e => .error e
    | .ok st' => run cfg ws st'

/-! ## Latest-Value Channel (spec §3), as used via `tokio::sync::watch` -/

/-- Modelled from the spec: the Latest-Value Channel
(`tokio::sync::watch::channel` in `src/main.rs:29-31`, whose implementation
is external to this repository). Spec §3: the channel holds one value;
`publish(v)` overwrites unconditionally and bumps the stored version; each
subscriber owns an independent cursor recording the last version it
observed. -/
structure WatchChannel (α : Type) where
  value : α
  version : ℕ

/-- Modelled from the spec: `publish(v)` overwrites unconditionally. -/
def publish {α : Type} (c : WatchChannel α) (v : α) : WatchChannel α :=
  { value := v, version := c.version + 1 }

/-- Modelled from the spec: `await_change()` suspends (`none`) until the
stored version differs from the subscriber's cursor, then returns the
current value together with the new cursor. -/
def await_change {α : Type} (c : WatchChannel α) (cursor : ℕ) :
    Option (α × ℕ) :=
  if c.version = cursor then none else some (c.value, c.version)

/-! ## The DEX quote engine (`src/adapters/hyperswap.rs`, `src/helpers/abi.rs`) -/

/-- The configuration fields consumed by the hyperswap quote cycle
(addresses modelled as their `u160` numeric value). -/
structure DexSettings where
  weth_addr : ℕ
  usdt_addr : ℕ
  pool_addr : ℕ
  quoter_v2_addr : ℕ
  self_addr : ℕ
deriving DecidableEq, Repr

/-- A quote request, the content of the calldata built by `quote_calldata`
(`quoteExactInputSingle`) or `quote_exact_output_calldata`
(`quoteExactOutputSingle`); the ABI byte serialization itself is an
external collaborator (spec §1). -/
structure QuoteRequest where
  exactOutput : Bool
  tokenIn : ℕ
  tokenOut : ℕ
  amount : ℕ
  fee : ℕ
  sqrtPriceLimitX96 : ℕ
deriving DecidableEq, Repr

/-- `pub static ONE_ETHER: U256 = uint!(1_000_000_000_000_000_000_U256)`. -/
def ONE_ETHER : ℕ := 10 ^ 18

/-- `quote_calldata` (`src/adapters/hyperswap.rs:53-73`): an exact-input
quote request; the price-limit sentinel depends on the token order
(`zero_for_one = token_in < token_out`). -/
def quote_calldata (token_in token_out amount_in fee : ℕ) : QuoteRequest :=
  let sqrt_price_limit_x96 : ℕ :=
    if token_in < token_out then 4295128749
    else 1461446703485210103287273052203988822378723970341
  { exactOutput := false
    tokenIn := token_in
    tokenOut := token_out
    amount := amount_in
    fee := fee
    sqrtPriceLimitX96 := sqrt_price_limit_x96 }

/-- `quote_exact_output_calldata` (`src/helpers/abi.rs:86-111`): the
exact-output analogue (declared in the repository, not called by the quote
cycle). -/
def quote_exact_output_calldata (token_in token_out amount_out fee : ℕ) :
    QuoteRequest :=
  let sqrt_price_limit_x96 : ℕ :=
    if token_in < token_out then 4295128749
    else 1461446703485210103287273052203988822378723970341
  { exactOutput := true
    tokenIn := token_in
    tokenOut := token_out
    amount := amount_out
    fee := fee
    sqrtPriceLimitX96 := sqrt_price_limit_x96 }

/-- The external world of one quote cycle: the result of
`hydrate_pool_state` (remote storage reads), the execution primitive
`revm_call` (returns response bytes or an execution failure), and the ABI
decoder `decode_quote_response` (first field of the decoded 4-tuple). -/
structure DexEnv where
  hydrateResult : Except Unit Unit
  execResult : QuoteRequest → Except Unit (List ℕ)
  decodeResult : List ℕ → Except Unit ℕ

/-- The observable state of the quote engine: the value currently published
on the DEX watch channel, plus the log of execution calls issued. -/
structure DexState where
  published : Option PriceData
  callLog : List QuoteRequest
deriving DecidableEq, Repr

/-- `fetch_quote_revm` (`src/adapters/hyperswap.rs:210-245`): build the
exact-input calldata for 1 ether of WHYPE at fee tier 3000, hydrate pool
state (`?` aborts on failure), issue the single `revm_call`, decode the
response, and publish `PriceData { bid: usdt_out * 1.000, ask: usdt_out * 1.000 }`
where `usdt_out = decoded as f64 / 1e6`. -/
def fetch_quote_revm (cfg : DexSettings) (env : DexEnv) (st : DexState) :
    Except Unit DexState :=
  let calldata := quote_calldata cfg.weth_addr cfg.usdt_addr ONE_ETHER 3000
  match env.hydrateResult with
  | .error e => .error e
  | .ok _ =>
    let st1 : DexState := { st with callLog := st.callLog ++ [calldata] }
    match env.execResult calldata with
    | .error e => .error e
    | .ok response =>
      match env.decodeResult response with
      | .error e => .error e
      | .ok amount =>
        let usdt_out : ℚ := (amount : ℚ) / 10 ^ 6
        .ok { st1 with published := some { bid := usdt_out * 1, ask := usdt_out * 1 } }

/-- The loop body of `run_hyperswap_listener` (`src/adapters/hyperswap.rs:117-129`):
`match fetch_quote_revm(..) { Ok(_) => {}, Err(e) => error!(..) }` — an
error is logged and swallowed, leaving the channel state untouched. -/
def hyperswap_cycle (cfg : DexSettings) (env : DexEnv) (st : DexState) :
    DexState :=
  match fetch_quote_revm cfg env st with
  | .ok st' => st'
  | .error _ => st

/-- The `loop { .. sleep .. }` of `run_hyperswap_listener` over a finite
trace of per-cycle environments: every scheduled cycle runs, whatever the
previous cycles returned. -/
def hyperswap_loop (cfg : DexSettings) : List DexEnv → DexState → DexState
  | [], st => st
  | env :: envs, st => hyperswap_loop cfg envs (hyperswap_cycle cfg env st)

/-! ## Storage-slot derivation (`insert_mapping_storage_slot`, `src/helpers/revm.rs:77-88`)

A full executable keccak-256 (the chain's standard hash, single-block
inputs suffice here) so the derivation can be evaluated on test vectors. -/

def mask64 : ℕ := 2 ^ 64 - 1

/-- 64-bit left rotation on a value `< 2^64`. -/
def rotl64 (x n : ℕ) : ℕ :=
  (x * 2 ^ (n % 64)) % 2 ^ 64 + x / 2 ^ (64 - n % 64)

/-- The FIPS 202 `rc` LFSR (polynomial `x^8 + x^6 + x^5 + x^4 + 1` over
GF(2), byte-wise): register contents after `t` shifts from `0x01`. -/
def lfsrIter : ℕ → ℕ
  | 0 => 1
  | t + 1 =>
    let r := 2 * lfsrIter t
    if 256 ≤ r then (r % 256) ^^^ 0x71 else r

/-- Bit `rc(t)` of the Keccak round-constant LFSR. -/
def rcBit (t : ℕ) : ℕ := lfsrIter (t % 255) % 2

/-- Keccak-f[1600] round constants, generated from the LFSR: round `ir`
has bit `2^j - 1` equal to `rc(j + 7*ir)`. -/
def keccakRC : List ℕ :=
  (List.range 24).map (fun ir =>
    (List.range 7).foldl (fun acc j => acc + rcBit (j + 7 * ir) * 2 ^ (2 ^ j - 1)) 0)

/-- The ρ-offset walk: starting from lane `(1,0)`, step `t` assigns
rotation `(t+1)(t+2)/2 mod 64` to the current lane and moves to
`(y, 2x+3y mod 5)`; yields `(lane index x + 5y, rotation)` pairs. -/
def rhoPositions : List (ℕ × ℕ) :=
  ((List.range 24).foldl
    (fun st t =>
      let x := st.1.1
      let y := st.1.2
      ((y, (2 * x + 3 * y) % 5), (x + 5 * y, ((t + 1) * (t + 2) / 2) % 64) :: st.2))
    ((1, 0), [])).2

/-- Rotation offsets for the ρ step, indexed `x + 5 * y` (lane `(0,0)`
is not rotated). -/
def rhoOffsets : List ℕ :=
  (List.range 25).map (fun i => ((rhoPositions.filter (fun p => p.1 = i)).headD (0, 0)).2)

/-- θ step. -/
def theta (s : List ℕ) : List ℕ :=
  let c := (List.range 5).map (fun x =>
    (((s.getD x 0 ^^^ s.getD (x + 5) 0) ^^^ s.getD (x + 10) 0) ^^^
      s.getD (x + 15) 0) ^^^ s.getD (x + 20) 0)
  let d := (List.range 5).map (fun x =>
    c.getD ((x + 4) % 5) 0 ^^^ rotl64 (c.getD ((x + 1) % 5) 0) 1)
  (List.range 25).map (fun i => s.getD i 0 ^^^ d.getD (i % 5) 0)

/-- ρ and π steps combined: entry `j` of the result is the rotated source
lane `(x' + 3y') % 5 + 5x'` for `j = x' + 5y'`. -/
def rhoPi (s : List ℕ) : List ℕ :=
  (List.range 25).map (fun j =>
    let i := (j % 5 + 3 * (j / 5)) % 5 + 5 * (j % 5)
    rotl64 (s.getD i 0) (rhoOffsets.getD i 0))

/-- χ step. -/
def chi (s : List ℕ) : List ℕ :=
  (List.range 25).map (fun j =>
    let x := j % 5
    let y := j / 5
    s.getD j 0 ^^^
      Nat.land (mask64 ^^^ s.getD ((x + 1) % 5 + 5 * y) 0)
        (s.getD ((x + 2) % 5 + 5 * y) 0))

/-- ι step for round `r`. -/
def iota (r : ℕ) (s : List ℕ) : List ℕ :=
  match s with
  | [] => []
  | a :: rest => (a ^^^ keccakRC.getD r 0) :: rest

/-- The Keccak-f[1600] permutation: 24 rounds of θ, ρ, π, χ, ι. -/
def keccakF (s : List ℕ) : List ℕ :=
  (List.range 24).foldl (fun st r => iota r (chi (rhoPi (theta st)))) s

/-- Keccak multi-rate padding (`pad10*1` with domain byte `0x01`) for a
message shorter than the 136-byte rate. -/
def padKeccak (msg : List ℕ) : List ℕ :=
  let padLen := 136 - msg.length % 136
  if padLen = 1 then msg ++ [0x81]
  else msg ++ [0x01] ++ List.replicate (padLen - 2) 0 ++ [0x80]

/-- Split one 136-byte rate block into 17 little-endian 64-bit lanes. -/
def blockToLanes (block : List ℕ) : List ℕ :=
  (List.range 17).map (fun i =>
    (List.range 8).foldl (fun acc b => acc + block.getD (8 * i + b) 0 * 2 ^ (8 * b)) 0)

/-- Keccak-256 digest (as 32 bytes) of a message shorter than one rate
block — all inputs hashed by `insert_mapping_storage_slot` are 64 bytes. -/
def keccak256Bytes (msg : List ℕ) : List ℕ :=
  let lanes := blockToLanes (padKeccak msg)
  let st := keccakF ((List.range 25).map (fun i => if i < 17 then lanes.getD i 0 else 0))
  (List.range 32).map (fun i => st.getD (i / 8) 0 / 2 ^ (8 * (i % 8)) % 256)

/-- Big-endian byte-list to natural number (how a `B256` digest is read as
a `U256` storage key by `hashed_balance_slot.into()`). -/
def bytesToNatBE (bs : List ℕ) : ℕ :=
  bs.foldl (fun acc b => acc * 256 + b) 0

/-- Keccak-256 of a sub-rate message, as a 256-bit natural number. -/
def keccak256 (msg : List ℕ) : ℕ :=
  bytesToNatBE (keccak256Bytes msg)

/-- The 32-byte big-endian encoding of a value (ABI head encoding of both
an `address`, left-padded to 32 bytes, and a `uint256`). -/
def encodeWord32 (n : ℕ) : List ℕ :=
  (List.range 32).map (fun i => n / 2 ^ (8 * (31 - i)) % 256)

/-- `(slot_address, slot).abi_encode()` for the `(Address, U256)` tuple in
`insert_mapping_storage_slot`: two 32-byte head words, address first. -/
def abiEncodeAddrU256 (slot_address slot : ℕ) : List ℕ :=
  encodeWord32 slot_address ++ encodeWord32 slot

/-- The storage key installed by `insert_mapping_storage_slot`
(`src/helpers/revm.rs:77-88`):
`keccak256((slot_address, slot).abi_encode())`, with `slot` the mapping's
base slot and `slot_address` the mapping key. -/
def insert_mapping_storage_slot_key (slot slot_address : ℕ) : ℕ :=
  keccak256 (abiEncodeAddrU256 slot_address slot)

/-- Spec §4.1: the effective storage key for `mapping[key]` declared at
base slot `b` is `hash(encode(key) ++ encode(b))`, with 32-byte big-endian
encodings and the chain's standard cryptographic hash. -/
def spec_derive (b k : ℕ) : ℕ :=
  keccak256 (encodeWord32 k ++ encodeWord32 b)

/-! ## Concrete fixtures used by witnesses and counterexamples -/

/-- A concrete configuration: 10 bps + 5 bps fees, 21000 gas units. -/
def cfgW : Settings :=
  { bybit_fee_bps := 10, hyperswap_fee_bps := 5, gas_used := 21000 }

/-- Both channels hold a sample; the gas provider answers 1 gwei. -/
def stBoth : EngineState :=
  { cex_rx := some { bid := 100, ask := 101 }
    dex_rx := some { bid := 99, ask := 100 }
    gasOracle := fun _ => .ok 1000000000
    fetchCount := 0
    alerts := [] }

/-- Both channels hold a sample; every gas fetch fails (upstream query
error). -/
def stGasFail : EngineState :=
  { cex_rx := some { bid := 100, ask := 101 }
    dex_rx := some { bid := 99, ask := 100 }
    gasOracle := fun _ => .error ()
    fetchCount := 0
    alerts := [] }

/-- Malformed upstream samples (the `ask ≥ bid ≥ 0` invariant violated):
zero and negative quotes, as produced from unparsable order-book fields. -/
def stMalformed : EngineState :=
  { cex_rx := some { bid := 0, ask := 0 }
    dex_rx := some { bid := 0, ask := -1 }
    gasOracle := fun _ => .ok 1000000000
    fetchCount := 0
    alerts := [] }

/-- The CEX channel still holds `None`. -/
def stCexNone : EngineState :=
  { cex_rx := none
    dex_rx := some { bid := 99, ask := 100 }
    gasOracle := fun _ => .ok 0
    fetchCount := 0
    alerts := [] }

/-- Concrete DEX configuration (addresses as small numerals; WHYPE sorts
below USDT so `zero_for_one` holds). -/
def dexCfgW : DexSettings :=
  { weth_addr := 1, usdt_addr := 2, pool_addr := 3, quoter_v2_addr := 4, self_addr := 5 }

/-- Initial DEX state: nothing published yet, no calls issued. -/
def dexSt0 : DexState :=
  { published := none, callLog := [] }

/-- A cycle environment whose pool-state hydration fails. -/
def envHydrateFail : DexEnv :=
  { hydrateResult := .error (), execResult := fun _ => .ok [], decodeResult := fun _ => .ok 0 }

/-- A cycle environment whose simulated execution call fails. -/
def envExecFail : DexEnv :=
  { hydrateResult := .ok (), execResult := fun _ => .error (), decodeResult := fun _ => .ok 0 }

/-- A fully successful cycle environment: the quote decodes to 3 USDT
(3000000 raw units at 6 decimals). -/
def envQuoteOk : DexEnv :=
  { hydrateResult := .ok (), execResult := fun _ => .ok [7], decodeResult := fun _ => .ok 3000000 }

/-! ## Helper lemmas -/

/-- Characterization of `check_for_opportunity` when both channels hold a
sample and the gas fetch succeeds: one gas fetch, both directions evaluated
with that gas price, alerts appended in order. -/
theorem check_for_opportunity_eq (cfg : Settings) (st : EngineState)
    (cex dex : PriceData) (g : ℕ)
    (hc : st.cex_rx = some cex) (hd : st.dex_rx = some dex)
    (hg : st.gasOracle st.fetchCount = .ok g) :
    check_for_opportunity cfg st = .ok
      { st with
        fetchCount := st.fetchCount + 1
        alerts := st.alerts ++ (calculate_arbitrage cfg cex.ask dex.bid .BuyCex g).toList
          ++ (calculate_arbitrage cfg dex.ask cex.bid .BuyDex g).toList } := by
  simp only [check_for_opportunity, hc, hd, hg]
  rcases hA : calculate_arbitrage cfg cex.ask dex.bid .BuyCex g with _ | oppA <;>
    rcases hB : calculate_arbitrage cfg dex.ask cex.bid .BuyDex g with _ | oppB <;>
      simp [Option.toList, List.append_assoc]

set_option maxRecDepth 10000

/-- Validation of the hash model against the canonical Keccak-256 test
vector for the empty message. -/
theorem keccak256_empty_message :
    keccak256 [] =
      0xc5d2460186f7233c927e7db2dcc703c0e500b653ca82273b7bfad8045d85a470 := by
  decide

/-- Validation against the canonical Keccak-256 digest of 64 zero bytes
(`keccak256(abi.encode(address(0), uint256(0)))`). -/
theorem keccak256_zero_tuple :
    keccak256 (abiEncodeAddrU256 0 0) =
      0xad3228b676f7d3cd4284a5443f17f1962b36e491b30a40b2405849e597ba5fb5 := by
  decide

/-! ## Claim theorems -/

/-- C1: for every evaluation with `buy_price > 0` (and the `u128` gas
product and `u32` fee sum within machine range), `calculate_arbitrage`
computes `gross_profit_bps`, `gas_cost_usd` (priced in the native token at
the sell-side price for `BuyCex` and the buy-side price for `BuyDex`),
`gas_cost_bps`, `net_profit_bps` and `net_profit_usd` exactly as the spec
§4.3 formulas state, with `total_fee_bps` the sum of the two configured
venue fee rates; any returned opportunity carries those values. -/
theorem calculate_arbitrage_formula (cfg : Settings) (buy_price sell_price : ℚ)
    (direction : ArbDirection) (gas_price_wei : ℕ)
    (_hb : 0 < buy_price)
    (hgas : gas_price_wei * cfg.gas_used < 2 ^ 128)
    (hfee : cfg.bybit_fee_bps + cfg.hyperswap_fee_bps < 2 ^ 32) :
    gross_profit_bps buy_price sell_price = spec_gross_profit_bps buy_price sell_price ∧
    gas_cost_usd cfg buy_price sell_price direction gas_price_wei =
      spec_gas_cost_usd gas_price_wei cfg.gas_used buy_price sell_price direction ∧
    gas_cost_bps cfg buy_price sell_price direction gas_price_wei =
      spec_gas_cost_bps
        (spec_gas_cost_usd gas_price_wei cfg.gas_used buy_price sell_price direction)
        buy_price ∧
    net_profit_bps cfg buy_price sell_price direction gas_price_wei =
      spec_net_profit_bps cfg buy_price sell_price direction gas_price_wei ∧
    estimated_profit_usd cfg buy_price sell_price direction gas_price_wei =
      spec_net_profit_usd cfg buy_price sell_price direction gas_price_wei ∧
    ∀ opp, calculate_arbitrage cfg buy_price sell_price direction gas_price_wei = some opp →
      opp.net_profit_bps = spec_net_profit_bps cfg buy_price sell_price direction gas_price_wei ∧
      opp.estimated_profit_usd =
        spec_net_profit_usd cfg buy_price sell_price direction gas_price_wei ∧
      opp.gas_cost_usd =
        spec_gas_cost_usd gas_price_wei cfg.gas_used buy_price sell_price direction := by
  have hwei : gas_cost_wei cfg gas_price_wei = gas_price_wei * cfg.gas_used :=
    Nat.mod_eq_of_lt hgas
  have hfee' : (cfg.bybit_fee_bps + cfg.hyperswap_fee_bps) % 2 ^ 32 =
      cfg.bybit_fee_bps + cfg.hyperswap_fee_bps := Nat.mod_eq_of_lt hfee
  have hgross : gross_profit_bps buy_price sell_price =
      spec_gross_profit_bps buy_price sell_price := rfl
  have husd : gas_cost_usd cfg buy_price sell_price direction gas_price_wei =
      spec_gas_cost_usd gas_price_wei cfg.gas_used buy_price sell_price direction := by
    cases direction <;>
      · simp only [gas_cost_usd, gas_cost_hype, hype_price, spec_gas_cost_usd, hwei]
        push_cast
        ring
  have hbps : gas_cost_bps cfg buy_price sell_price direction gas_price_wei =
      spec_gas_cost_bps
        (spec_gas_cost_usd gas_price_wei cfg.gas_used buy_price sell_price direction)
        buy_price := by
    simp only [gas_cost_bps, spec_gas_cost_bps, husd]
  have hnet : net_profit_bps cfg buy_price sell_price direction gas_price_wei =
      spec_net_profit_bps cfg buy_price sell_price direction gas_price_wei := by
    simp only [net_profit_bps, spec_net_profit_bps, total_fees_bps, hfee', hbps, hgross]
  have husd2 : estimated_profit_usd cfg buy_price sell_price direction gas_price_wei =
      spec_net_profit_usd cfg buy_price sell_price direction gas_price_wei := by
    simp only [estimated_profit_usd, spec_net_profit_usd, hnet]
  refine ⟨hgross, husd, hbps, hnet, husd2, ?_⟩
  intro opp hopp
  unfold calculate_arbitrage at hopp
  split_ifs at hopp
  cases hopp
  exact ⟨hnet, husd2, husd⟩

/-- C1 witness: a concrete profitable evaluation (CEX ask 100, DEX bid
100.5, 10 + 5 bps fees, 21000 gas units at 1 gwei) satisfying every
hypothesis of `calculate_arbitrage_formula`. -/
theorem calculate_arbitrage_formula_witness :
    (0 : ℚ) < 100 ∧ 1000000000 * (Settings.mk 10 5 21000).gas_used < 2 ^ 128 ∧
    (Settings.mk 10 5 21000).bybit_fee_bps + (Settings.mk 10 5 21000).hyperswap_fee_bps < 2 ^ 32 ∧
    gross_profit_bps 100 (201 / 2) = spec_gross_profit_bps 100 (201 / 2) :=
  ⟨by norm_num, by norm_num, by norm_num,
    (calculate_arbitrage_formula (Settings.mk 10 5 21000) 100 (201 / 2) .BuyCex 1000000000
      (by norm_num) (by norm_num) (by norm_num)).1⟩

/-- C2 (amended): for every `buy_price ≠ 0`, `calculate_arbitrage` returns
an opportunity iff `gross_profit_bps > 0` and `net_profit_bps > 0`; and
whenever `buy_price > 0` and `sell_price ≤ buy_price` it returns no
opportunity, regardless of fee and gas values. (The `buy_price > 0` guard
on the boundary part is forced by the counterexample
`calculate_arbitrage_negative_prices`; the `buy_price ≠ 0` guard on the
iff scopes the statement to where the rational embedding is faithful — at
`buy_price = 0` the `f64` source's NaN comparisons fall through both
`<= 0.0` guards and an opportunity is returned even though
`gross_profit_bps > 0` does not hold.) -/
theorem calculate_arbitrage_gate :
    (∀ (cfg : Settings) (buy_price sell_price : ℚ) (direction : ArbDirection) (g : ℕ),
      buy_price ≠ 0 →
      ((calculate_arbitrage cfg buy_price sell_price direction g).isSome ↔
        (0 < gross_profit_bps buy_price sell_price ∧
          0 < net_profit_bps cfg buy_price sell_price direction g))) ∧
    (∀ (cfg : Settings) (buy_price sell_price : ℚ) (direction : ArbDirection) (g : ℕ),
      0 < buy_price → sell_price ≤ buy_price →
      calculate_arbitrage cfg buy_price sell_price direction g = none) := by
  constructor
  · intro cfg buy_price sell_price direction g _hb
    unfold calculate_arbitrage
    split_ifs with h1 h2 <;> simp_all
  · intro cfg buy_price sell_price direction g hb hsb
    have hq : (sell_price - buy_price) / buy_price ≤ 0 :=
      div_nonpos_of_nonpos_of_nonneg (by linarith) hb.le
    have h : gross_profit_bps buy_price sell_price ≤ 0 := by
      unfold gross_profit_bps; linarith
    unfold calculate_arbitrage
    simp [if_pos h]

/-- C2 witness: at buy 100 (nonzero), sell 100.5, zero fees and zero gas,
the gate iff holds, and the boundary case buy 100, sell 100 reports
none. -/
theorem calculate_arbitrage_gate_witness :
    ((calculate_arbitrage (Settings.mk 0 0 0) 100 (201 / 2) .BuyCex 0).isSome ↔
      (0 < gross_profit_bps 100 (201 / 2) ∧
        0 < net_profit_bps (Settings.mk 0 0 0) 100 (201 / 2) .BuyCex 0)) ∧
    calculate_arbitrage (Settings.mk 0 0 0) 100 100 .BuyCex 0 = none :=
  ⟨calculate_arbitrage_gate.1 (Settings.mk 0 0 0) 100 (201 / 2) .BuyCex 0 (by norm_num),
    calculate_arbitrage_gate.2 (Settings.mk 0 0 0) 100 100 .BuyCex 0 (by norm_num) le_rfl⟩

/-- C2 counterexample: with both prices negative (possible, since the
system nowhere enforces `ask ≥ bid ≥ 0`), `sell_price ≤ buy_price` yet
`calculate_arbitrage` reports an opportunity: at `buy_price = -2`,
`sell_price = -3`, zero fees and zero gas, `gross_profit_bps = 5000 > 0`
and `net_profit_bps = 5000 > 0`. -/
theorem calculate_arbitrage_negative_prices :
    ((-3 : ℚ) ≤ -2) ∧
    (calculate_arbitrage (Settings.mk 0 0 0) (-2) (-3) .BuyCex 0).isSome = true := by
  refine ⟨by norm_num, ?_⟩
  norm_num [calculate_arbitrage, gross_profit_bps, net_profit_bps, total_fees_bps,
    gas_cost_bps, gas_cost_usd, gas_cost_hype, gas_cost_wei, hype_price]

/-- C3: on a wake, the loop body is the same whichever channel fired (both
select arms run `check_for_opportunity` on the current state), and when both
channels hold a sample the evaluation fetches the gas price exactly once
(`fetchCount` grows by one) and evaluates direction A with
`buy_price = CEX ask, sell_price = DEX bid` and direction B with
`buy_price = DEX ask, sell_price = CEX bid`, reusing the same fetched gas
price for both. -/
theorem check_wake_contract (cfg : Settings) (st : EngineState)
    (cex dex : PriceData) (g : ℕ)
    (hc : st.cex_rx = some cex) (hd : st.dex_rx = some dex)
    (hg : st.gasOracle st.fetchCount = .ok g) :
    (∀ w w' : Wake, run_step cfg w st = run_step cfg w' st) ∧
    check_for_opportunity cfg st = .ok
      { st with
        fetchCount := st.fetchCount + 1
        alerts := st.alerts ++ (calculate_arbitrage cfg cex.ask dex.bid .BuyCex g).toList
          ++ (calculate_arbitrage cfg dex.ask cex.bid .BuyDex g).toList } :=
  ⟨fun _ _ => rfl, check_for_opportunity_eq cfg st cex dex g hc hd hg⟩

/-- C3 witness: the contract instantiated on `stBoth` (CEX 100/101,
DEX 99/100, gas 1 gwei). -/
theorem check_wake_contract_witness :
    run_step cfgW Wake.CexChanged stBoth = run_step cfgW Wake.DexChanged stBoth ∧
    check_for_opportunity cfgW stBoth = .ok
      { stBoth with
        fetchCount := stBoth.fetchCount + 1
        alerts := stBoth.alerts ++
          (calculate_arbitrage cfgW (PriceData.mk 100 101).ask (PriceData.mk 99 100).bid
            .BuyCex 1000000000).toList ++
          (calculate_arbitrage cfgW (PriceData.mk 99 100).ask (PriceData.mk 100 101).bid
            .BuyDex 1000000000).toList } :=
  ⟨(check_wake_contract cfgW stBoth (PriceData.mk 100 101) (PriceData.mk 99 100)
      1000000000 rfl rfl rfl).1 Wake.CexChanged Wake.DexChanged,
    (check_wake_contract cfgW stBoth (PriceData.mk 100 101) (PriceData.mk 99 100)
      1000000000 rfl rfl rfl).2⟩

/-- C4 failing input: both channels hold a sample and the gas-price fetch
fails. The claim (and spec §7/§9) requires the engine task to survive and
retry on the next channel change, but `run` propagates the error out of its
loop with `?`: the trace ends in `Err` and the second wake is never
evaluated — the engine task terminates. -/
theorem run_terminates_on_gas_fetch_failure :
    run cfgW [Wake.CexChanged, Wake.DexChanged] stGasFail = .error () := rfl

/-- C5: a `HydrationError` aborts the quote cycle leaving the whole state
(including the published sample) untouched; an `ExecutionError` aborts the
cycle without publishing; and the engine loop always proceeds to the next
scheduled cycle, whatever a cycle returned — a single failed quote never
terminates the loop. -/
theorem quote_cycle_error_containment :
    (∀ (cfg : DexSettings) (env : DexEnv) (st : DexState),
      env.hydrateResult = .error () → hyperswap_cycle cfg env st = st) ∧
    (∀ (cfg : DexSettings) (env : DexEnv) (st : DexState),
      env.execResult (quote_calldata cfg.weth_addr cfg.usdt_addr ONE_ETHER 3000) =
        .error () →
      (hyperswap_cycle cfg env st).published = st.published) ∧
    (∀ (cfg : DexSettings) (env : DexEnv) (envs : List DexEnv) (st : DexState),
      hyperswap_loop cfg (env :: envs) st = hyperswap_loop cfg envs (hyperswap_cycle cfg env st)) := by
  refine ⟨?_, ?_, fun _ _ _ _ => rfl⟩
  · intro cfg env st hh
    simp [hyperswap_cycle, fetch_quote_revm, hh]
  · intro cfg env st hexec
    rcases hh : env.hydrateResult with ⟨⟨⟩⟩ | ⟨⟨⟩⟩
    · simp [hyperswap_cycle, fetch_quote_revm, hh]
    · simp [hyperswap_cycle, fetch_quote_revm, hh, hexec]

/-- C5 witness: a failed-hydration cycle and a failed-execution cycle on
the concrete initial state leave the published sample unchanged. -/
theorem quote_cycle_error_containment_witness :
    hyperswap_cycle dexCfgW envHydrateFail dexSt0 = dexSt0 ∧
    (hyperswap_cycle dexCfgW envExecFail dexSt0).published = dexSt0.published :=
  ⟨quote_cycle_error_containment.1 dexCfgW envHydrateFail dexSt0 rfl,
    quote_cycle_error_containment.2.1 dexCfgW envExecFail dexSt0 rfl⟩

/-- C6 (amended): each quote cycle issues exactly one quote, the
exact-input `quoteExactInputSingle` request for 1 ether at fee tier 3000,
and publishes a PriceSample whose bid and ask are both the decoded
exact-input result scaled by `1e6`; no exact-output quote is issued. -/
theorem fetch_quote_revm_single_exact_input (cfg : DexSettings) (env : DexEnv)
    (st : DexState) (response : List ℕ) (amount : ℕ)
    (hh : env.hydrateResult = .ok ())
    (he : env.execResult (quote_calldata cfg.weth_addr cfg.usdt_addr ONE_ETHER 3000) =
      .ok response)
    (hd : env.decodeResult response = .ok amount) :
    fetch_quote_revm cfg env st = .ok
      { published := some
          { bid := (amount : ℚ) / 10 ^ 6 * 1, ask := (amount : ℚ) / 10 ^ 6 * 1 }
        callLog := st.callLog ++ [quote_calldata cfg.weth_addr cfg.usdt_addr ONE_ETHER 3000] } ∧
    (quote_calldata cfg.weth_addr cfg.usdt_addr ONE_ETHER 3000).exactOutput = false := by
  refine ⟨?_, rfl⟩
  simp [fetch_quote_revm, hh, he, hd]

/-- C6 witness: the successful concrete cycle (`envQuoteOk`, decoding to
3000000 raw units) publishes `bid = ask = 3` and issues the single
exact-input request. -/
theorem fetch_quote_revm_single_exact_input_witness :
    fetch_quote_revm dexCfgW envQuoteOk dexSt0 = .ok
      { published := some
          { bid := (3000000 : ℚ) / 10 ^ 6 * 1, ask := (3000000 : ℚ) / 10 ^ 6 * 1 }
        callLog := dexSt0.callLog ++
          [quote_calldata dexCfgW.weth_addr dexCfgW.usdt_addr ONE_ETHER 3000] } ∧
    (quote_calldata dexCfgW.weth_addr dexCfgW.usdt_addr ONE_ETHER 3000).exactOutput = false :=
  fetch_quote_revm_single_exact_input dexCfgW envQuoteOk dexSt0 [7] 3000000 rfl rfl rfl

/-- C6 counterexample: in the concrete successful cycle the engine issues
exactly one quote request, which is not an exact-output request, and the
published ask equals the decoded exact-input result — so the claim that each
cycle also issues an exact-output quote whose decoded result becomes the
ask is false. -/
theorem quote_cycle_no_exact_output :
    (hyperswap_cycle dexCfgW envQuoteOk dexSt0).callLog =
      [quote_calldata 1 2 ONE_ETHER 3000] ∧
    (quote_calldata 1 2 ONE_ETHER 3000).exactOutput = false ∧
    (hyperswap_cycle dexCfgW envQuoteOk dexSt0).published =
      some { bid := 3, ask := 3 } := by
  refine ⟨rfl, rfl, ?_⟩
  norm_num [hyperswap_cycle, fetch_quote_revm, dexCfgW, envQuoteOk, dexSt0,
    quote_calldata, ONE_ETHER]

set_option maxRecDepth 10000

/-- C7: the storage key installed by `insert_mapping_storage_slot` for
`mapping[key]` at base slot `b` is exactly
`keccak256(encode(key) ++ encode(b))` with 32-byte big-endian encodings
(the spec §4.1 derivation); the derivation is a pure deterministic
function; and distinct keys yield distinct slots on the test vectors
(keys 1 and 2 at base slot 0). -/
theorem slot_derivation_spec :
    (∀ b k : ℕ, insert_mapping_storage_slot_key b k = spec_derive b k) ∧
    (∀ b k : ℕ, insert_mapping_storage_slot_key b k = insert_mapping_storage_slot_key b k) ∧
    insert_mapping_storage_slot_key 0 1 ≠ insert_mapping_storage_slot_key 0 2 :=
  ⟨fun _ _ => rfl, fun _ _ => rfl, by decide⟩

/-- C8: conflation of the Latest-Value Channel — after `publish(v1)` then
`publish(v2)` with no subscriber wake in between, a subscriber whose cursor
predates both publishes is woken and observes `v2`, never `v1`. -/
theorem watch_channel_conflation {α : Type} (c : WatchChannel α) (cursor : ℕ)
    (v1 v2 : α) (h : cursor ≤ c.version) :
    await_change (publish (publish c v1) v2) cursor = some (v2, c.version + 2) := by
  dsimp only [publish, await_change]
  rw [if_neg (by omega)]

/-- C8 witness: on a freshly created channel (holding `none`, version 0), a
subscriber at cursor 0 sees only the second of two back-to-back publishes. -/
theorem watch_channel_conflation_witness :
    await_change
      (publish (publish (WatchChannel.mk (none : Option PriceData) 0)
        (some (PriceData.mk 1 2))) (some (PriceData.mk 3 4))) 0 =
      some (some (PriceData.mk 3 4), 0 + 2) :=
  watch_channel_conflation (WatchChannel.mk (none : Option PriceData) 0) 0
    (some (PriceData.mk 1 2)) (some (PriceData.mk 3 4)) (Nat.le_refl 0)

/-- C9: the evaluation is total on arbitrary published samples, including
ones violating the expected `ask ≥ bid ≥ 0` invariant: whenever both
channels hold any samples at all and the gas fetch answers,
`check_for_opportunity` completes normally (no crash). -/
theorem evaluation_total_on_malformed_samples (cfg : Settings) (st : EngineState)
    (cex dex : PriceData) (g : ℕ)
    (hc : st.cex_rx = some cex) (hd : st.dex_rx = some dex)
    (hg : st.gasOracle st.fetchCount = .ok g) :
    (check_for_opportunity cfg st).isOk = true := by
  rw [check_for_opportunity_eq cfg st cex dex g hc hd hg]
  rfl

/-- C9 witness: evaluation completes normally on the malformed samples
`bid = 0, ask = 0` and `bid = 0, ask = -1`. -/
theorem evaluation_total_on_malformed_samples_witness :
    (check_for_opportunity cfgW stMalformed).isOk = true :=
  evaluation_total_on_malformed_samples cfgW stMalformed
    (PriceData.mk 0 0) (PriceData.mk 0 (-1)) 1000000000 rfl rfl rfl

/-- C10: when either channel still holds no sample, `check_for_opportunity`
returns `Ok(())` immediately with the state unchanged: no gas-price query
is issued (`fetchCount` unchanged) and no opportunity is emitted (`alerts`
unchanged). -/
theorem check_skips_without_both_samples (cfg : Settings) (st : EngineState)
    (h : st.cex_rx = none ∨ st.dex_rx = none) :
    check_for_opportunity cfg st = .ok st := by
  rcases h with h | h <;>
    · unfold check_for_opportunity
      rcases hc : st.cex_rx with _ | cex <;> rcases hd : st.dex_rx with _ | dex <;>
        simp_all

/-- C10 witness: with the CEX channel empty, the evaluation returns the
state unchanged. -/
theorem check_skips_without_both_samples_witness :
    check_for_opportunity cfgW stCexNone = .ok stCexNone :=
  check_skips_without_both_samples cfgW stCexNone (Or.inl rfl)

end ArbBot
